import Mathlib

/-!
Shallow embedding of the composio SDK's entity-resolution and tool-dispatch
core (files `composio/client/enums/base.py`, `composio/tools/base/local.py`,
`composio/tools/toolset.py`), together with theorems settling the spec's
claims about it.

Python dictionaries over JSON-like scalar values are modelled as ordered
association lists with Python's insertion-order update semantics.
-/

set_option autoImplicit false

/-- Scalar JSON-like values appearing in request/response payloads. -/
inductive Value where
  | null
  | bool (b : Bool)
  | str (s : String)
  | num (n : Int)
  deriving Repr, DecidableEq

/-- A Python `dict` with string keys: an ordered association list with
unique keys (uniqueness is maintained by `Dict.set`). -/
abbrev Dict := List (String × Value)

/-- First-match association-list lookup (`d[k]` / `d.get(k)` in Python,
also used for the processor and metadata tables). -/
def alookup {κ : Type} {α : Type} [BEq κ] (l : List (κ × α)) (k : κ) : Option α :=
  match l with
  | [] => none
  | (k2, v) :: rest => if k2 == k then some v else alookup rest k

/-- Python `"s" in l` membership over a list of strings. -/
def listContains (l : List String) (s : String) : Bool :=
  match l with
  | [] => false
  | x :: rest => if x == s then true else listContains rest s

/-- Python `s.upper()` for the ASCII slugs used by the enum classes. -/
def pyUpper (s : String) : String :=
  ⟨s.data.map Char.toUpper⟩

/-- Python `d[k] = v`: replace the value in place if the key exists
(preserving insertion order), otherwise append the pair at the end. -/
def Dict.set (d : Dict) (k : String) (v : Value) : Dict :=
  if d.any (fun p => p.1 == k) then
    d.map (fun p => if p.1 == k then (k, v) else p)
  else
    d ++ [(k, v)]

/-- Python `d.update(e)` / `{**d, **e}`: fold `Dict.set` over `e`. -/
def Dict.update (d e : Dict) : Dict :=
  e.foldl (fun acc kv => Dict.set acc kv.1 kv.2) d

/-- Dictionary membership as lookup. -/
def Dict.get? (d : Dict) (k : String) : Option Value :=
  alookup d k

/-!
## Local tool dispatcher — `LocalToolMixin.execute` (tools/base/local.py)

The body of the `try` block (handler construction with `metadata["kwargs"]`,
context injection, `_process_request` file inlining, request parsing and
`instance.execute`) is abstracted as a function from the parameter dict to
its outcome: a response model dump, an `ExecutionFailed` exception carrying
a message and extra fields, or any other exception carrying its `str`.
-/

/-- Outcome of running the `try` block of `LocalToolMixin.execute` for a
given parameter dict. -/
inductive TryOutcome where
  | ok (response : Dict)
  | execFailed (message : String) (extra : Dict)
  | exc (message : String)

/-- A tool's `_actions` handler table: action enum name to handler
behaviour. -/
abbrev HandlerTable := List (String × (Dict → TryOutcome))

/-- `LocalToolMixin.execute`: look up the handler; if absent raise
`ValueError` (modelled as `Except.error`); otherwise run the handler and
normalize its outcome into a response dict, catching `ExecutionFailed` and
any other exception. -/
def LocalToolMixin.execute (table : HandlerTable) (action : String)
    (params : Dict) : Except String Dict :=
  match alookup table action with
  | none => .error ("No action found with name `" ++ action ++ "`")
  | some handler =>
    match handler params with
    | .ok response =>
        .ok (Dict.update response [("successfull", .bool true), ("error", .null)])
    | .execFailed message extra =>
        .ok (Dict.update [("successfull", .bool false), ("error", .str message)] extra)
    | .exc message =>
        .ok [("successfull", .bool false), ("error", .str message)]

/-- Concrete handler table used to exhibit the dispatcher's behaviour:
one handler per outcome kind, mirroring the spec's CREATE_FILE example and
its ExecutionFailed example. -/
def exampleHandlerTable : HandlerTable :=
  [ ("CREATE_FILE", fun _ => .ok [("file", .str "/tmp/x"), ("success", .bool true)])
  , ("FAILING_ACTION", fun _ => .execFailed "disk full" [("code", .num 28)])
  , ("RAISING_ACTION", fun _ => .exc "boom") ]

/-- Claim C1 (counterexample): the claim states the success payload carries
the key `successful`; the code spells the key `successfull`. At the concrete
registered action CREATE_FILE with empty params, the result has no key
`successful` at all, while `successfull` is mapped to `true`. -/
theorem C1_counterexample :
    (LocalToolMixin.execute exampleHandlerTable "CREATE_FILE" []).toOption.bind
        (fun d => Dict.get? d "successful") = none
    ∧ (LocalToolMixin.execute exampleHandlerTable "CREATE_FILE" []).toOption.bind
        (fun d => Dict.get? d "successfull") = some (.bool true)
    ∧ (LocalToolMixin.execute exampleHandlerTable "FAILING_ACTION" []).toOption.bind
        (fun d => Dict.get? d "successful") = none := by
  refine ⟨rfl, rfl, rfl⟩

/-- Claim C1 (amended: the status key is spelled `successfull`, as in the
source): for every registered action and parameter dict, execute never
propagates the handler's exception — it returns a normalized dict: on
success the response fields plus `successfull: true` and `error: null`; on
`ExecutionFailed m extra` the dict `{successfull: false, error: m}` merged
with `extra`; on any other exception `e` the dict
`{successfull: false, error: str(e)}`. -/
theorem C1_normalization (table : HandlerTable) (action : String) (params : Dict)
    (handler : Dict → TryOutcome) (hfound : alookup table action = some handler) :
    (∃ d, LocalToolMixin.execute table action params = .ok d)
    ∧ (∀ response, handler params = .ok response →
        LocalToolMixin.execute table action params =
          .ok (Dict.update response [("successfull", .bool true), ("error", .null)]))
    ∧ (∀ message extra, handler params = .execFailed message extra →
        LocalToolMixin.execute table action params =
          .ok (Dict.update [("successfull", .bool false), ("error", .str message)] extra))
    ∧ (∀ message, handler params = .exc message →
        LocalToolMixin.execute table action params =
          .ok [("successfull", .bool false), ("error", .str message)]) := by
  refine ⟨?_, ?_, ?_, ?_⟩
  · cases h : handler params with
    | ok response =>
        exact ⟨Dict.update response [("successfull", .bool true), ("error", .null)],
          by simp [LocalToolMixin.execute, hfound, h]⟩
    | execFailed message extra =>
        exact ⟨Dict.update [("successfull", .bool false), ("error", .str message)] extra,
          by simp [LocalToolMixin.execute, hfound, h]⟩
    | exc message =>
        exact ⟨[("successfull", .bool false), ("error", .str message)],
          by simp [LocalToolMixin.execute, hfound, h]⟩
  · intro response h
    simp [LocalToolMixin.execute, hfound, h]
  · intro message extra h
    simp [LocalToolMixin.execute, hfound, h]
  · intro message h
    simp [LocalToolMixin.execute, hfound, h]

/-- Claim C1 (witness): instantiating the normalization theorem at the
ExecutionFailed example from the spec: message "disk full" and extra
`{code: 28}` produce `{successfull: false, error: "disk full", code: 28}`. -/
theorem C1_normalization_witness :
    LocalToolMixin.execute exampleHandlerTable "FAILING_ACTION" [] =
      .ok [("successfull", .bool false), ("error", .str "disk full"),
           ("code", .num 28)] :=
  (C1_normalization exampleHandlerTable "FAILING_ACTION" []
      (fun _ => .execFailed "disk full" [("code", .num 28)]) rfl).2.2.1
    "disk full" [("code", .num 28)] rfl

/-- Claim C8: for every action name absent from the handler table,
`LocalToolMixin.execute` raises a `ValueError` naming that action (an
`Except.error`, not a failure-shaped `.ok` payload); no handler is looked
up or run — the result is this error for every handler table agreeing on
the absence. -/
theorem C8_missing_handler (table : HandlerTable) (action : String) (params : Dict)
    (habsent : alookup table action = none) :
    LocalToolMixin.execute table action params =
      .error ("No action found with name `" ++ action ++ "`") := by
  simp [LocalToolMixin.execute, habsent]

/-- Claim C8 (witness): the spec's example — a table registering CREATE_FILE
but not DELETE_FILE: invoking DELETE_FILE yields the raised error. -/
theorem C8_missing_handler_witness :
    LocalToolMixin.execute exampleHandlerTable "DELETE_FILE" [] =
      .error "No action found with name `DELETE_FILE`" :=
  C8_missing_handler exampleHandlerTable "DELETE_FILE" [] rfl

/-!
## Enum resolver construction — `_AnnotatedEnum.__init__` (client/enums/base.py)

Resolution sources for a subclass of `_AnnotatedEnum` (App/Action/Trigger):
the class annotations (static members), the `_runtime_actions` module table,
the class `_deprecated` map, and the three registries imported from
`composio.tools.base.abs` (each a dict keyed by group id whose values are
slug-keyed dicts, modelled as lists of slug groups). `self.__class__.__name__`
appears in the error message and is carried as `className`.
-/

/-- Static configuration visible to `_AnnotatedEnum.__init__` for one
resolver class. -/
structure EnumConfig where
  className : String
  annotations : List String
  deprecated : List (String × String)
  runtime_actions : List String
  action_registry : List (List String)
  trigger_registry : List (List String)
  tool_registry : List (List String)
  deriving Repr

/-- The value passed to `_AnnotatedEnum.__init__`: a raw string, an existing
resolver instance (it contributes its `_slug`), or an object carrying the
`sentinal` marker attribute (it contributes its `enum` attribute). -/
inductive EnumValue where
  | str (s : String)
  | resolver (slug : String)
  | sentinel (enum : String)

/-- Membership scan over a registry: `for _, entries in registry.items():
if slug in entries: return`. -/
def registryContains (registry : List (List String)) (slug : String) : Bool :=
  match registry with
  | [] => false
  | grp :: rest =>
      if listContains grp slug then true else registryContains rest slug

/-- The fallthrough of `_AnnotatedEnum.__init__` after the deprecation
check: accept if the slug is an annotation or runtime action, else scan the
action, trigger and tool registries in that order, else raise `ValueError`.
Returns the final slug and the number of warnings emitted. -/
def _AnnotatedEnum.validate (cfg : EnumConfig) (slug : String) :
    Except String (String × Nat) :=
  if listContains cfg.annotations slug || listContains cfg.runtime_actions slug then
    .ok (slug, 0)
  else if registryContains cfg.action_registry slug then .ok (slug, 0)
  else if registryContains cfg.trigger_registry slug then .ok (slug, 0)
  else if registryContains cfg.tool_registry slug then .ok (slug, 0)
  else .error ("Invalid value `" ++ slug ++ "` for `" ++ cfg.className ++ "`")

/-- The string path of `_AnnotatedEnum.__init__`: uppercase the value; if
the result is a deprecated key and warnings are enabled, emit one warning
and adopt the replacement with no further checks; otherwise validate. -/
def _AnnotatedEnum.initSlug (cfg : EnumConfig) (s : String) (warn : Bool) :
    Except String (String × Nat) :=
  let slug := pyUpper s
  match alookup cfg.deprecated slug with
  | some repl => if warn then .ok (repl, 1) else _AnnotatedEnum.validate cfg slug
  | none => _AnnotatedEnum.validate cfg slug

/-- `_AnnotatedEnum.__init__`: a value with a `sentinal` attribute has its
`enum` attribute adopted verbatim; an existing resolver contributes its
`_slug` and then follows the string path (which uppercases it). -/
def _AnnotatedEnum.init (cfg : EnumConfig) (value : EnumValue) (warn : Bool) :
    Except String (String × Nat) :=
  match value with
  | .sentinel e => .ok (e, 0)
  | .resolver slug => _AnnotatedEnum.initSlug cfg slug warn
  | .str s => _AnnotatedEnum.initSlug cfg s warn

/-- The right-hand operand of `_AnnotatedEnum.__eq__`: a raw string or
another resolver (anything else returns NotImplemented and is not
modelled). -/
inductive EnumEqOperand where
  | str (s : String)
  | resolver (slug : String)

/-- `_AnnotatedEnum.__eq__`: `str(self) == str(other)`, where `str` of a
resolver is its `_slug` and `str` of a string is itself. -/
def _AnnotatedEnum.eq (selfSlug : String) (other : EnumEqOperand) : Bool :=
  match other with
  | .str s => selfSlug == s
  | .resolver slug => selfSlug == slug

/-- A small concrete resolver-class configuration modelled on the `App`
enum: GITHUB and SLACK are static members; one deprecated alias. -/
def exampleAppCfg : EnumConfig :=
  { className := "App"
  , annotations := ["GITHUB", "SLACK", "FILETOOL"]
  , deprecated := [("OLD_GITHUB", "GITHUB")]
  , runtime_actions := []
  , action_registry := []
  , trigger_registry := []
  , tool_registry := [] }

/-- Claim C4: a slug that is not a static member, not runtime-registered,
not a deprecated key, and absent from all three local registries makes
`__init__` raise `ValueError` whose message names the (normalized) slug and
the resolver class name; no default is substituted. -/
theorem C4_invalid_identifier (cfg : EnumConfig) (s : String) (warn : Bool)
    (hann : listContains cfg.annotations (pyUpper s) = false)
    (hrt : listContains cfg.runtime_actions (pyUpper s) = false)
    (hdep : alookup cfg.deprecated (pyUpper s) = none)
    (hact : registryContains cfg.action_registry (pyUpper s) = false)
    (htrg : registryContains cfg.trigger_registry (pyUpper s) = false)
    (htool : registryContains cfg.tool_registry (pyUpper s) = false) :
    _AnnotatedEnum.init cfg (.str s) warn =
      .error ("Invalid value `" ++ pyUpper s ++ "` for `" ++ cfg.className ++ "`") := by
  simp only [_AnnotatedEnum.init, _AnnotatedEnum.initSlug, _AnnotatedEnum.validate,
        hann, hrt, hdep, hact, htrg, htool, Bool.or_self, if_false, Bool.false_eq_true,
        ite_false]

/-- Claim C4 (witness): resolving "NOPE_NOT_REAL" against the example App
configuration raises the invalid-identifier error naming slug and kind. -/
theorem C4_invalid_identifier_witness :
    _AnnotatedEnum.init exampleAppCfg (.str "NOPE_NOT_REAL") true =
      .error "Invalid value `NOPE_NOT_REAL` for `App`" :=
  C4_invalid_identifier exampleAppCfg "NOPE_NOT_REAL" true
    (by decide) (by decide) (by decide) (by decide) (by decide) (by decide)

/-- Registry scan lemma: every registered group member is accepted. Shared
helper, not tied to a single claim. -/
theorem validate_of_mem_annotations (cfg : EnumConfig) (slug : String)
    (hmem : listContains cfg.annotations slug = true) :
    _AnnotatedEnum.validate cfg slug = .ok (slug, 0) := by
  simp only [_AnnotatedEnum.validate, hmem, Bool.true_or, if_true]

/-- Claim C5: constructing from a deprecated slug with warnings enabled
adopts the declared replacement with exactly one warning and no further
validation (no hypothesis on the replacement is needed for that part); and
whenever the replacement is itself a canonical static member, the result
carries exactly the slug a direct construction from the replacement yields,
so the two resolvers are equal under `__eq__`. -/
theorem C5_deprecation_substitution (cfg : EnumConfig) (s repl : String)
    (hdep : alookup cfg.deprecated (pyUpper s) = some repl) :
    _AnnotatedEnum.init cfg (.str s) true = .ok (repl, 1)
    ∧ (pyUpper repl = repl → listContains cfg.annotations repl = true →
        alookup cfg.deprecated repl = none →
        _AnnotatedEnum.init cfg (.str repl) true = .ok (repl, 0)
        ∧ _AnnotatedEnum.eq repl (.resolver repl) = true) := by
  constructor
  · simp only [_AnnotatedEnum.init, _AnnotatedEnum.initSlug, hdep, if_true]
  · intro hu hmem hnodep
    constructor
    · simp only [_AnnotatedEnum.init, _AnnotatedEnum.initSlug, hu, hnodep]
      exact validate_of_mem_annotations cfg repl hmem
    · simp [_AnnotatedEnum.eq]

/-- Claim C5 (witness): OLD_GITHUB is deprecated in favour of GITHUB; its
construction yields slug GITHUB with one warning, equal to the resolver
constructed directly from GITHUB (zero warnings). -/
theorem C5_deprecation_substitution_witness :
    _AnnotatedEnum.init exampleAppCfg (.str "OLD_GITHUB") true = .ok ("GITHUB", 1)
    ∧ _AnnotatedEnum.init exampleAppCfg (.str "GITHUB") true = .ok ("GITHUB", 0) :=
  ⟨(C5_deprecation_substitution exampleAppCfg "OLD_GITHUB" "GITHUB" (by decide)).1,
   ((C5_deprecation_substitution exampleAppCfg "OLD_GITHUB" "GITHUB" (by decide)).2
      (by decide) (by decide) (by decide)).1⟩

/-- Claim C6: for a valid (non-deprecated) static slug S in uppercase, any
spelling c with c.upper() = S constructs the same resolver as S itself,
with slug S; two resolvers are equal under `__eq__` exactly when their
stored (normalized) slugs are equal; and a resolver compares equal to the
raw string carrying its normalized slug. -/
theorem C6_case_insensitive_equality (cfg : EnumConfig) (S c s1 s2 : String)
    (hS : pyUpper S = S) (hc : pyUpper c = S)
    (hmem : listContains cfg.annotations S = true)
    (hdep : alookup cfg.deprecated S = none) :
    _AnnotatedEnum.init cfg (.str c) true = _AnnotatedEnum.init cfg (.str S) true
    ∧ _AnnotatedEnum.init cfg (.str c) true = .ok (S, 0)
    ∧ (_AnnotatedEnum.eq s1 (.resolver s2) = true ↔ s1 = s2)
    ∧ _AnnotatedEnum.eq S (.str S) = true := by
  have hcS : _AnnotatedEnum.init cfg (.str c) true = .ok (S, 0) := by
    simp only [_AnnotatedEnum.init, _AnnotatedEnum.initSlug, hc, hdep]
    exact validate_of_mem_annotations cfg S hmem
  have hSS : _AnnotatedEnum.init cfg (.str S) true = .ok (S, 0) := by
    simp only [_AnnotatedEnum.init, _AnnotatedEnum.initSlug, hS, hdep]
    exact validate_of_mem_annotations cfg S hmem
  refine ⟨hcS.trans hSS.symm, hcS, ?_, ?_⟩
  · simp [_AnnotatedEnum.eq]
  · simp [_AnnotatedEnum.eq]

/-- Claim C6 (witness): "github", "GiThUb" and "GITHUB" all construct the
GITHUB resolver, and the resolver equals the raw string "GITHUB". -/
theorem C6_case_insensitive_equality_witness :
    _AnnotatedEnum.init exampleAppCfg (.str "github") true =
      _AnnotatedEnum.init exampleAppCfg (.str "GITHUB") true
    ∧ _AnnotatedEnum.init exampleAppCfg (.str "GiThUb") true = .ok ("GITHUB", 0)
    ∧ _AnnotatedEnum.eq "GITHUB" (.str "GITHUB") = true :=
  ⟨(C6_case_insensitive_equality exampleAppCfg "GITHUB" "github" "GITHUB" "GITHUB"
      (by decide) (by decide) (by decide) (by decide)).1,
   (C6_case_insensitive_equality exampleAppCfg "GITHUB" "GiThUb" "GITHUB" "GITHUB"
      (by decide) (by decide) (by decide) (by decide)).2.1,
   (C6_case_insensitive_equality exampleAppCfg "GITHUB" "GITHUB" "GITHUB" "GITHUB"
      (by decide) (by decide) (by decide) (by decide)).2.2.2⟩

/-- Claim C9: any constructor input carrying the `sentinal` marker has its
`enum` attribute adopted verbatim as the slug — for every configuration,
every enum string and either warn flag — with no uppercasing, no deprecation
substitution and no registry validation; concretely, a lowercase slug that
the string path would reject (and a slug listed as a deprecated key) are
both accepted unchanged through the sentinel path. -/
theorem C9_sentinel_bypass :
    (∀ (cfg : EnumConfig) (e : String) (warn : Bool),
        _AnnotatedEnum.init cfg (.sentinel e) warn = .ok (e, 0))
    ∧ _AnnotatedEnum.init exampleAppCfg (.sentinel "nope_not_real") true =
        .ok ("nope_not_real", 0)
    ∧ pyUpper "nope_not_real" ≠ "nope_not_real"
    ∧ _AnnotatedEnum.init exampleAppCfg (.str "nope_not_real") true =
        .error "Invalid value `NOPE_NOT_REAL` for `App`"
    ∧ _AnnotatedEnum.init exampleAppCfg (.sentinel "OLD_GITHUB") true =
        .ok ("OLD_GITHUB", 0) := by
  refine ⟨fun cfg e warn => rfl, rfl, by decide, rfl, rfl⟩

/-!
## Lazy record materialization — `_AnnotatedEnum.load` (client/enums/base.py)

State visible to `load`: the in-process `_model_cache` and
`_runtime_actions` maps and the per-slug on-disk cache directory, all keyed
by slug. `_cache()` computes `_cache_from_local() or _cache_from_remote()`
(local registry first, remote HTTP fetch only when the local registry has
no entry), stores the record in `_model_cache`, and best-effort persists it
to disk (`OSError`/`PermissionError` swallowed). The record type `R` stands
for the `AppData`/`ActionData`/`TriggerData` model of the subclass.
-/

/-- Mutable state read and written by `_AnnotatedEnum.load`. -/
structure EnumState (R : Type) where
  modelCache : List (String × R)
  runtimeActions : List (String × R)
  disk : List (String × R)

/-- Environment of `_cache()`: the local-registry lookup
(`_cache_from_local`), the remote fetch (`_cache_from_remote`), and whether
the best-effort `data.store()` succeeds. -/
structure FetchEnv (R : Type) where
  localRegistry : String → Option R
  remote : String → R
  storeSucceeds : Bool

/-- Result of one `load()` call: the returned record, the state after the
call, and how many remote fetches the call performed. -/
structure LoadResult (R : Type) where
  record : R
  state : EnumState R
  remoteFetches : Nat

/-- Insert or overwrite a keyed entry (`m[k] = v` on a Python dict,
modelled positionally like `Dict.set`). -/
def mapSet {R : Type} (m : List (String × R)) (k : String) (v : R) :
    List (String × R) :=
  match m with
  | [] => [(k, v)]
  | (k2, v2) :: rest =>
      if k2 == k then (k, v) :: rest else (k2, v2) :: mapSet rest k v

/-- `_AnnotatedEnum.load`: return the `_model_cache` entry if present, else
the `_runtime_actions` entry if present; otherwise run `_cache()` when the
disk file is absent, then read through `_model_cache` (loading the disk
file into it when `_cache()` was skipped). -/
def _AnnotatedEnum.load {R : Type} (env : FetchEnv R) (slug : String)
    (s : EnumState R) : LoadResult R :=
  match alookup s.modelCache slug with
  | some r => ⟨r, s, 0⟩
  | none =>
    match alookup s.runtimeActions slug with
    | some r => ⟨r, s, 0⟩
    | none =>
      match alookup s.disk slug with
      | some r =>
          ⟨r, { s with modelCache := mapSet s.modelCache slug r }, 0⟩
      | none =>
          match env.localRegistry slug with
          | some r =>
              ⟨r,
               { s with
                 modelCache := mapSet s.modelCache slug r
                 disk := if env.storeSucceeds then mapSet s.disk slug r else s.disk },
               0⟩
          | none =>
              let r := env.remote slug
              ⟨r,
               { s with
                 modelCache := mapSet s.modelCache slug r
                 disk := if env.storeSucceeds then mapSet s.disk slug r else s.disk },
               1⟩

/-- Lookup after `mapSet` at the same key. Shared helper. -/
theorem alookup_mapSet_self {R : Type} (m : List (String × R)) (k : String) (v : R) :
    alookup (mapSet m k v) k = some v := by
  induction m with
  | nil => simp [mapSet, alookup]
  | cons hd tl ih =>
      obtain ⟨k2, v2⟩ := hd
      by_cases h : k2 == k
      · simp [mapSet, alookup, h]
      · simp only [mapSet, alookup, h, if_false, Bool.false_eq_true, ite_false]
        exact ih

/-- Runtime-table state used to refute the cache-population clause of the
load claim: one runtime-registered action, nothing cached, nothing on
disk. -/
def runtimeOnlyState : EnumState Nat :=
  { modelCache := [], runtimeActions := [("RUNTIME_ACT", 7)], disk := [] }

/-- Environment whose remote fetch is observable. -/
def exampleFetchEnv : FetchEnv Nat :=
  { localRegistry := fun _ => none, remote := fun _ => 99, storeSucceeds := true }

/-- Claim C3 (counterexample): for a runtime-registered slug, the first
`load()` returns the runtime-table record but does NOT populate the
in-process `_model_cache` keyed by the slug, contrary to the claim's
"the first call populates the in-process cache keyed by the slug". -/
theorem C3_counterexample :
    (_AnnotatedEnum.load exampleFetchEnv "RUNTIME_ACT" runtimeOnlyState).record = 7
    ∧ alookup (_AnnotatedEnum.load exampleFetchEnv "RUNTIME_ACT"
        runtimeOnlyState).state.modelCache "RUNTIME_ACT" = none := by
  exact ⟨rfl, rfl⟩

/-- Claim C3 (amended: the first call populates the in-process cache keyed
by the slug unless the slug is runtime-registered, in which case both calls
read the runtime table directly): calling `load()` twice returns the same
record both times, the second call leaves the state unchanged and performs
no remote fetch. -/
theorem C3_load_idempotent {R : Type} (env : FetchEnv R) (slug : String)
    (s0 : EnumState R) :
    (_AnnotatedEnum.load env slug (_AnnotatedEnum.load env slug s0).state).record
      = (_AnnotatedEnum.load env slug s0).record
    ∧ (_AnnotatedEnum.load env slug (_AnnotatedEnum.load env slug s0).state).state
      = (_AnnotatedEnum.load env slug s0).state
    ∧ (_AnnotatedEnum.load env slug
        (_AnnotatedEnum.load env slug s0).state).remoteFetches = 0
    ∧ (alookup s0.runtimeActions slug = none →
        (alookup (_AnnotatedEnum.load env slug s0).state.modelCache slug).isSome
          = true) := by
  unfold _AnnotatedEnum.load
  cases hmc : alookup s0.modelCache slug with
  | some r => simp [hmc]
  | none =>
      cases hrt : alookup s0.runtimeActions slug with
      | some r => simp [hmc, hrt]
      | none =>
          cases hdk : alookup s0.disk slug with
          | some r => simp [hmc, hrt, hdk, alookup_mapSet_self]
          | none =>
              cases hlr : env.localRegistry slug with
              | some r => simp [hmc, hrt, hdk, hlr, alookup_mapSet_self]
              | none => simp [hmc, hrt, hdk, hlr, alookup_mapSet_self]

/-- Claim C3 (witness): instantiating the idempotence theorem where the
first call performs the remote fetch: both calls return the fetched record,
the second call does not change the state, performs zero remote fetches,
and the cache is populated after the first call. -/
theorem C3_load_idempotent_witness :
    (_AnnotatedEnum.load exampleFetchEnv "GITHUB"
        (_AnnotatedEnum.load exampleFetchEnv "GITHUB"
          ⟨[], [], []⟩).state).record
      = (_AnnotatedEnum.load exampleFetchEnv "GITHUB" ⟨[], [], []⟩).record
    ∧ (_AnnotatedEnum.load exampleFetchEnv "GITHUB"
        (_AnnotatedEnum.load exampleFetchEnv "GITHUB"
          ⟨[], [], []⟩).state).remoteFetches = 0
    ∧ (alookup (_AnnotatedEnum.load exampleFetchEnv "GITHUB"
        ⟨[], [], []⟩).state.modelCache "GITHUB").isSome = true :=
  ⟨(C3_load_idempotent exampleFetchEnv "GITHUB" ⟨[], [], []⟩).1,
   (C3_load_idempotent exampleFetchEnv "GITHUB" ⟨[], [], []⟩).2.2.1,
   (C3_load_idempotent exampleFetchEnv "GITHUB" ⟨[], [], []⟩).2.2.2 rfl⟩

/-!
## Toolset orchestrator — `ComposioToolSet` (tools/toolset.py)

`execute_action` resolves the action, serializes and pre-processes the
params, merges metadata in place, dispatches locally or remotely (the
remote path first checking for a connected account), and post-processes the
response. The resolved action's loaded properties (`app`, `no_auth`,
`is_local`, `is_runtime`) are carried as an `ActionInfo` record; the
processor and metadata tables are keyed by App-or-Action resolver keys;
the local dispatch (`workspace.execute_action`) and the remote client call
are abstracted as functions producing the raw response dict.
-/

/-- A processor/metadata table key: an `App` or an `Action` resolver,
identified by its slug. -/
inductive PKey where
  | app (slug : String)
  | action (slug : String)
  deriving Repr, DecidableEq, BEq

/-- Which processor table `_process` consults (the `type_` literal). -/
inductive PType where
  | pre
  | post

/-- The caller-configured state of a `ComposioToolSet` relevant here: the
`processors` argument (two key-to-transform tables) and the `metadata`
argument (key-to-dict table). -/
structure ComposioToolSet where
  pre_processors : List (PKey × (Dict → Dict))
  post_processors : List (PKey × (Dict → Dict))
  metadata : List (PKey × Dict)

/-- Resolved-action data consulted by `execute_action` and
`check_connected_account`: the action's slug and the loaded record's
fields. -/
structure ActionInfo where
  slug : String
  app : String
  no_auth : Bool
  is_local : Bool
  is_runtime : Bool

/-- `ComposioToolSet._get_processor`: look up the transform for a key in
the pre or post table. -/
def ComposioToolSet.get_processor (ts : ComposioToolSet) (type_ : PType)
    (key : PKey) : Option (Dict → Dict) :=
  match type_ with
  | .pre => alookup ts.pre_processors key
  | .post => alookup ts.post_processors key

/-- `ComposioToolSet._process`: apply the keyed transform when configured,
otherwise pass the payload through. -/
def ComposioToolSet.process (ts : ComposioToolSet) (type_ : PType) (key : PKey)
    (data : Dict) : Dict :=
  match ts.get_processor type_ key with
  | some processor => processor data
  | none => data

/-- `ComposioToolSet._process_request`: app-keyed pre-processor first, then
action-keyed pre-processor. -/
def ComposioToolSet.process_request (ts : ComposioToolSet) (action : ActionInfo)
    (request : Dict) : Dict :=
  ts.process .pre (.action action.slug)
    (ts.process .pre (.app action.app) request)

/-- `ComposioToolSet._process_respone` (source spelling): action-keyed
post-processor first, then app-keyed post-processor. -/
def ComposioToolSet.process_respone (ts : ComposioToolSet) (action : ActionInfo)
    (response : Dict) : Dict :=
  ts.process .post (.app action.app)
    (ts.process .post (.action action.slug) response)

/-- `ComposioToolSet._get_metadata`: configured metadata for a key, empty
when absent. -/
def ComposioToolSet.get_metadata (ts : ComposioToolSet) (key : PKey) : Dict :=
  match alookup ts.metadata key with
  | some md => md
  | none => []

/-- `ComposioToolSet._add_metadata`: `metadata = metadata or {}` (an absent
or empty caller dict is replaced by a fresh one), then `update` with the
app-keyed and then the action-keyed configured metadata — in place on the
caller's object when it was a non-empty dict. Returns the merged dict and
the content of the caller's dict after the call. -/
def ComposioToolSet.add_metadata (ts : ComposioToolSet) (action : ActionInfo)
    (metadata : Option Dict) : Dict × Option Dict :=
  let base : Dict :=
    match metadata with
    | some d => if d.isEmpty then [] else d
    | none => []
  let merged :=
    Dict.update (Dict.update base (ts.get_metadata (.app action.app)))
      (ts.get_metadata (.action action.slug))
  (merged, metadata.map (fun d => if d.isEmpty then d else merged))

/-- `ComposioToolSet.check_connected_account`: skip the check for no-auth
or runtime actions; otherwise require a connected account whose
`appUniqueId` equals the action's app, raising `ComposioSDKError` with
remediation guidance otherwise. -/
def ComposioToolSet.check_connected_account (connected_accounts : List String)
    (action : ActionInfo) : Except String Unit :=
  if action.no_auth || action.is_runtime then .ok ()
  else if listContains connected_accounts action.app then .ok ()
  else
    .error ("No connected account found for app `" ++ action.app ++ "`; " ++
            "Run `composio add " ++ action.app ++ "` to fix this")

/-- `ComposioToolSet.execute_action` (dispatch core): pre-process the
serialized params, merge metadata (mutating the caller's dict as
`_add_metadata` does), run the local dispatcher when the action is local,
otherwise check the connected account and run the remote call, and
post-process the response. Returns the result together with the content of
the caller's metadata dict after the call. -/
def ComposioToolSet.execute_action (ts : ComposioToolSet)
    (connected_accounts : List String) (action : ActionInfo)
    (localExec : Dict → Dict → Dict) (remoteExec : Dict → Dict)
    (params : Dict) (metadata : Option Dict) :
    Except String Dict × Option Dict :=
  let params := ts.process_request action params
  let md := ts.add_metadata action metadata
  let response : Except String Dict :=
    if action.is_local then .ok (localExec params md.1)
    else
      match ComposioToolSet.check_connected_account connected_accounts action with
      | .error e => .error e
      | .ok _ => .ok (remoteExec params)
  match response with
  | .error e => (.error e, md.2)
  | .ok r => (.ok (ts.process_respone action r), md.2)

/-- List-based suffix test used to state the spec's "_app_action"
example. -/
def strEndsWith (s suffix : String) : Bool :=
  s.data.drop (s.data.length - suffix.data.length) == suffix.data

/-- Transform appending a marker to a named string field, as in the spec's
processor-ordering example. -/
def appendToField (k marker : String) (d : Dict) : Dict :=
  match Dict.get? d k with
  | some (.str s) => Dict.set d k (.str (s ++ marker))
  | _ => d

/-- Resolved local action used in the toolset examples. -/
def exampleLocalAction : ActionInfo :=
  { slug := "FILETOOL_CREATE_FILE", app := "FILETOOL"
  , no_auth := true, is_local := true, is_runtime := false }

/-- Toolset with both app-level and action-level pre- and post-processors
configured for the example action, each appending its marker. -/
def exampleProcessorToolSet : ComposioToolSet :=
  { pre_processors :=
      [ (.app "FILETOOL", appendToField "x" "_app")
      , (.action "FILETOOL_CREATE_FILE", appendToField "x" "_action") ]
  , post_processors :=
      [ (.app "FILETOOL", appendToField "y" "_app")
      , (.action "FILETOOL_CREATE_FILE", appendToField "y" "_action") ]
  , metadata := [] }

/-- Claim C2: with an app-level and an action-level processor both
configured for an action, `_process_request` applies the app transform
first and the action transform second, `_process_respone` applies the
action transform first and the app transform second, and `execute_action`
on a local action feeds the dispatcher the request processed in that order
and returns the response processed in the reverse order. -/
theorem C2_processor_order (ts : ComposioToolSet) (a : ActionInfo)
    (preApp preAct postApp postAct : Dict → Dict)
    (hpre1 : ts.get_processor .pre (.app a.app) = some preApp)
    (hpre2 : ts.get_processor .pre (.action a.slug) = some preAct)
    (hpost1 : ts.get_processor .post (.app a.app) = some postApp)
    (hpost2 : ts.get_processor .post (.action a.slug) = some postAct) :
    (∀ d, ts.process_request a d = preAct (preApp d))
    ∧ (∀ d, ts.process_respone a d = postApp (postAct d))
    ∧ (a.is_local = true →
        ∀ accounts localExec remoteExec params metadata,
          (ts.execute_action accounts a localExec remoteExec params metadata).1 =
            .ok (postApp (postAct (localExec (preAct (preApp params))
              (ts.add_metadata a metadata).1)))) := by
  have hreq : ∀ d, ts.process_request a d = preAct (preApp d) := fun d => by
    simp [ComposioToolSet.process_request, ComposioToolSet.process, hpre1, hpre2]
  have hresp : ∀ d, ts.process_respone a d = postApp (postAct d) := fun d => by
    simp [ComposioToolSet.process_respone, ComposioToolSet.process, hpost1, hpost2]
  refine ⟨hreq, hresp, fun hlocal accounts localExec remoteExec params metadata => ?_⟩
  simp [ComposioToolSet.execute_action, hlocal, hreq, hresp]

/-- Claim C2 (witness): the spec's example — an app transform appending
"_app" and an action transform appending "_action": the final request field
is "u_app_action" (ending in "_app_action") and the final response field is
"v_action_app". -/
theorem C2_processor_order_witness :
    ComposioToolSet.process_request exampleProcessorToolSet exampleLocalAction
      [("x", .str "u")] = [("x", .str "u_app_action")]
    ∧ strEndsWith "u_app_action" "_app_action" = true
    ∧ ComposioToolSet.process_respone exampleProcessorToolSet exampleLocalAction
      [("y", .str "v")] = [("y", .str "v_action_app")] := by
  refine ⟨?_, by decide, ?_⟩
  · rw [(C2_processor_order exampleProcessorToolSet exampleLocalAction
      (appendToField "x" "_app") (appendToField "x" "_action")
      (appendToField "y" "_app") (appendToField "y" "_action")
      rfl rfl rfl rfl).1]
    rfl
  · rw [(C2_processor_order exampleProcessorToolSet exampleLocalAction
      (appendToField "x" "_app") (appendToField "x" "_action")
      (appendToField "y" "_app") (appendToField "y" "_action")
      rfl rfl rfl rfl).2.1]
    rfl

/-- Claim C7: `execute_action` on a local action never raises the
missing-connected-account error whatever the account list; neither does a
no-auth action; a non-local action that is neither no-auth nor
runtime-registered, whose app has no connected account, yields exactly that
error with remediation guidance naming the app — independently of the
remote call, which is therefore never performed. -/
theorem C7_missing_connected_account (ts : ComposioToolSet)
    (accounts : List String) (a : ActionInfo)
    (localExec : Dict → Dict → Dict) (remoteExec : Dict → Dict)
    (params : Dict) (metadata : Option Dict) :
    (a.is_local = true →
      (ts.execute_action accounts a localExec remoteExec params metadata).1 =
        .ok (ts.process_respone a (localExec (ts.process_request a params)
          (ts.add_metadata a metadata).1)))
    ∧ (a.no_auth = true →
      ∃ d, (ts.execute_action accounts a localExec remoteExec params metadata).1 =
        .ok d)
    ∧ (a.is_local = false → a.no_auth = false → a.is_runtime = false →
      listContains accounts a.app = false →
      (ts.execute_action accounts a localExec remoteExec params metadata).1 =
        .error ("No connected account found for app `" ++ a.app ++ "`; " ++
                "Run `composio add " ++ a.app ++ "` to fix this")) := by
  refine ⟨?_, ?_, ?_⟩
  · intro hlocal
    simp [ComposioToolSet.execute_action, hlocal]
  · intro hnoauth
    cases hlocal : a.is_local with
    | true =>
        exact ⟨ts.process_respone a (localExec (ts.process_request a params)
            (ts.add_metadata a metadata).1),
          by simp [ComposioToolSet.execute_action, hlocal]⟩
    | false =>
        exact ⟨ts.process_respone a (remoteExec (ts.process_request a params)),
          by simp [ComposioToolSet.execute_action,
                ComposioToolSet.check_connected_account, hlocal, hnoauth]⟩
  · intro hlocal hnoauth hruntime hacct
    simp [ComposioToolSet.execute_action, ComposioToolSet.check_connected_account,
          hlocal, hnoauth, hruntime, hacct]

/-- Non-local, auth-requiring variant of the example action. -/
def exampleRemoteAction : ActionInfo :=
  { slug := "GITHUB_CREATE_ISSUE", app := "GITHUB"
  , no_auth := false, is_local := false, is_runtime := false }

/-- Claim C7 (witness): with no connected accounts, the local no-auth
example action executes to a response, while the remote action fails with
the remediation error naming its app. -/
theorem C7_missing_connected_account_witness :
    (ComposioToolSet.execute_action exampleProcessorToolSet [] exampleLocalAction
        (fun _ _ => [("done", .bool true)]) (fun _ => []) [] none).1 =
      .ok [("done", .bool true)]
    ∧ (ComposioToolSet.execute_action exampleProcessorToolSet [] exampleRemoteAction
        (fun _ _ => []) (fun _ => []) [] none).1 =
      .error "No connected account found for app `GITHUB`; Run `composio add GITHUB` to fix this" :=
  ⟨(C7_missing_connected_account exampleProcessorToolSet [] exampleLocalAction
      (fun _ _ => [("done", .bool true)]) (fun _ => []) [] none).1 rfl,
   (C7_missing_connected_account exampleProcessorToolSet [] exampleRemoteAction
      (fun _ _ => []) (fun _ => []) [] none).2.2 rfl rfl rfl rfl⟩

/-- Toolset with app-level and action-level metadata configured for the
example local action. -/
def exampleMetadataToolSet : ComposioToolSet :=
  { pre_processors := [], post_processors := []
  , metadata :=
      [ (.app "FILETOOL", [("base_url", .str "https://api")])
      , (.action "FILETOOL_CREATE_FILE", [("timeout", .num 30)]) ] }

/-- Claim C10 (counterexample): a caller-supplied EMPTY metadata dict is
not mutated — `metadata or {}` replaces a falsy (empty) dict with a fresh
one — although the merged metadata the call goes on to use is non-empty; so
`execute_action` does not always leave the merged keys in the caller's
dict. -/
theorem C10_counterexample :
    (ComposioToolSet.execute_action exampleMetadataToolSet [] exampleLocalAction
        (fun _ _ => []) (fun _ => []) [] (some [])).2 = some []
    ∧ (ComposioToolSet.add_metadata exampleMetadataToolSet exampleLocalAction
        (some [])).1 =
      [("base_url", .str "https://api"), ("timeout", .num 30)] := by
  exact ⟨rfl, rfl⟩

/-- Claim C10 (amended: the mutation happens whenever the caller-supplied
dict is non-empty; an empty dict is swapped for a fresh one by `metadata or
{}` and left untouched): after `execute_action`, a non-empty caller dict
contains exactly itself overlaid with the app-keyed and then the
action-keyed configured metadata. -/
theorem C10_metadata_mutation (ts : ComposioToolSet)
    (accounts : List String) (a : ActionInfo)
    (localExec : Dict → Dict → Dict) (remoteExec : Dict → Dict)
    (params : Dict) (d : Dict) (hne : d.isEmpty = false) :
    (ts.execute_action accounts a localExec remoteExec params (some d)).2 =
      some (Dict.update (Dict.update d (ts.get_metadata (.app a.app)))
        (ts.get_metadata (.action a.slug))) := by
  have hd : ¬ d = [] := by
    intro h
    rw [h] at hne
    exact absurd hne (by simp)
  cases hlocal : a.is_local with
  | true => simp [ComposioToolSet.execute_action, ComposioToolSet.add_metadata,
      hlocal, hne, hd]
  | false =>
      cases hchk : ComposioToolSet.check_connected_account accounts a with
      | ok u => simp [ComposioToolSet.execute_action, ComposioToolSet.add_metadata,
          hlocal, hchk, hne, hd]
      | error e => simp [ComposioToolSet.execute_action, ComposioToolSet.add_metadata,
          hlocal, hchk, hne, hd]

/-- Claim C10 (witness): a caller dict holding one key gains the app-level
and action-level metadata keys in place. -/
theorem C10_metadata_mutation_witness :
    (ComposioToolSet.execute_action exampleMetadataToolSet [] exampleLocalAction
        (fun _ _ => []) (fun _ => []) [] (some [("mine", .bool true)])).2 =
      some [("mine", .bool true), ("base_url", .str "https://api"),
            ("timeout", .num 30)] :=
  C10_metadata_mutation exampleMetadataToolSet [] exampleLocalAction
    (fun _ _ => []) (fun _ => []) [] [("mine", .bool true)] rfl
